import Mathlib

/-!
Shallow embedding of the `ecco` compiler front end
(`src/ecco/generation/symboltable.py`, `src/ecco/scanning/ecco_scanner.py`,
`src/ecco/parsing/statement.py`) and proofs about its specification claims.

Python conventions mapped to Lean:
* Python `int` is arbitrary precision; all integer values appearing here are
  modelled as `Nat` (all are non-negative) except the FP table's `_length`
  counter, which is modelled as `Int` since the code decrements it.
* A Python run-time exception is modelled with `Except EccoError` (for
  exceptions raised by the embedded code) or with an `Option` result where an
  out-of-range access / division by zero would raise.
* A Python `while` loop is modelled by structural recursion on an explicit
  fuel argument; `none` means the fuel ran out before the loop finished.
-/

/-- Errors raised by the embedded code. Constructor names follow the Python
exception class names (`EccoSyntaxError`, `EccoIdentifierError`, the built-in
`TypeError`). -/
inductive EccoError where
  | EccoSyntaxError (msg : String)
  | EccoIdentifierError (msg : String)
  | TypeError (msg : String)
deriving DecidableEq

/-- `FNV_OFFSET_BASIS = 0xCBF29CE484222325` from `symboltable.py`. -/
def FNV_OFFSET_BASIS : Nat := 0xCBF29CE484222325

/-- `FNV_PRIME = 0x100000001B3` from `symboltable.py`. -/
def FNV_PRIME : Nat := 0x100000001B3

/-- `SymbolTableEntry`: a name, an integer value, and a never-populated
`next` chain link (kept to mirror the source class). -/
inductive SymbolTableEntry where
  | mk (identifier_name : String) (value : Int) (next : Option SymbolTableEntry)

/-- `HashTableSymbolTable`: backed by `self.data`, a Python list of
`Optional[SymbolTableEntry]` slots. -/
structure HashTableSymbolTable where
  data : List (Option SymbolTableEntry)

/-- `HashTableSymbolTable.__init__(length)`: `self.data = [None] * length`. -/
def HashTableSymbolTable.init (length : Nat) : HashTableSymbolTable :=
  ⟨List.replicate length none⟩

/-- `HashTableSymbolTable.length`: `len(self.data)`. -/
def HashTableSymbolTable.length (t : HashTableSymbolTable) : Nat :=
  t.data.length

/-- `HashTableSymbolTable.resize(factor)`: `self.data += [None] * factor`. -/
def HashTableSymbolTable.resize (t : HashTableSymbolTable) (factor : Nat) :
    HashTableSymbolTable :=
  ⟨t.data ++ List.replicate factor none⟩

/-- The accumulation loop of `HashTableSymbolTable.hash`:
`for c in s: hash ^= ord(c); hash *= FNV_PRIME`.  Python integers are
arbitrary precision, so no step is reduced modulo `2^64`. -/
def fnv1a (s : List Char) : Nat :=
  s.foldl (fun h c => (h ^^^ c.toNat) * FNV_PRIME) FNV_OFFSET_BASIS

/-- `HashTableSymbolTable.hash(s)`: the FNV-1a accumulation (over unbounded
Python integers) reduced `% self.length`.  (In Python, a table of length 0
would raise `ZeroDivisionError` here; callers below always supply a positive
length.) -/
def HashTableSymbolTable.hash (t : HashTableSymbolTable) (s : String) : Nat :=
  fnv1a s.data % t.length

/-- `HashTableSymbolTable.update(identifier, entry)`.  The source reads
`self.data[id_index]`, sets `symbol_already_exists = True` **when the slot is
`None`** (the inverted flag of the source, preserved verbatim), writes the
slot, and returns the flag.  `none` models the `ZeroDivisionError`/`IndexError`
of an empty backing list. -/
def HashTableSymbolTable.update (t : HashTableSymbolTable) (identifier : String)
    (entry : Option SymbolTableEntry) : Option (Bool × HashTableSymbolTable) :=
  let id_index := t.hash identifier
  match t.data.get? id_index with
  | none => none
  | some slot =>
      let symbol_already_exists := slot.isNone
      some (symbol_already_exists, ⟨t.data.set id_index entry⟩)

/-- `HashTableSymbolTable.get(identifier)`: `self.data[self.hash(identifier)]`.
The outer `Option` models the possible `ZeroDivisionError`/`IndexError` on an
empty backing list; `some slot` is the stored `Optional[SymbolTableEntry]`. -/
def HashTableSymbolTable.get (t : HashTableSymbolTable) (identifier : String) :
    Option (Option SymbolTableEntry) :=
  t.data.get? (t.hash identifier)

/-- Follows the spec's words, for comparison with `HashTableSymbolTable.hash`:
FNV-1a "with every step reduced under unsigned 64-bit wraparound
(modulo 2^64)". -/
def fnv1a_spec (s : List Char) : Nat :=
  s.foldl (fun h c => ((h ^^^ c.toNat) * FNV_PRIME) % 2 ^ 64) FNV_OFFSET_BASIS

/-- Follows the spec's words: the 64-bit-wrapped FNV-1a hash "taken modulo the
current slot count". -/
def hash_spec (len : Nat) (s : String) : Nat :=
  fnv1a_spec s.data % len

/-- `FPSymbolTable`.  Its `self.data` field holds a closure
`Callable[[str], Optional[SymbolTableEntry]]`.  Every call to `update`
creates one more closure `new_symbol_table` capturing `(self, identifier,
entry)` and stores it in `self.data`; we record the chain of created
closures as `frames` (newest first), so `self.data` is the closure of the
head frame, or `identity_table` when `frames = []`.  `_length` is the
explicit counter field. -/
structure FPSymbolTable where
  frames : List (String × Option SymbolTableEntry)
  _length : Int

/-- `FPSymbolTable.__init__`: `self.data = self.identity_table`,
`self._length = 0`. -/
def FPSymbolTable.init : FPSymbolTable := ⟨[], 0⟩

/-- Calling the closure currently stored in `self.data`, with explicit
recursion fuel.  The body of `new_symbol_table` executes
`current_symbol_table = self.data` **when it is invoked** — that is, after
`self.data = new_symbol_table` has already run — so the closure it delegates
to for `s ≠ identifier` is the table's *current* (head) closure itself, not
the one that was current when the update happened.  Hence the recursive call
below is on the same `frames`; `none` models the `RecursionError` this
produces (no fuel suffices). -/
def fpCall (frames : List (String × Option SymbolTableEntry)) :
    Nat → String → Option (Option SymbolTableEntry)
  | fuel, s =>
    match frames with
    | [] => some none
    | (identifier, entry) :: _ =>
        if s = identifier then some entry
        else
          match fuel with
          | 0 => none
          | fuel + 1 => fpCall frames fuel s

/-- `FPSymbolTable.get(identifier)`: `return self.data(identifier)`. -/
def FPSymbolTable.get (t : FPSymbolTable) (fuel : Nat) (identifier : String) :
    Option (Option SymbolTableEntry) :=
  fpCall t.frames fuel identifier

/-- `FPSymbolTable.update(identifier, entry)`: reads
`symbol_already_exists = self.get(identifier) is not None`, installs the new
closure, then adjusts `self._length` exactly as the source does.  `none`
propagates a `RecursionError` from the initial `get`. -/
def FPSymbolTable.update (t : FPSymbolTable) (fuel : Nat) (identifier : String)
    (entry : Option SymbolTableEntry) : Option (Bool × FPSymbolTable) :=
  match t.get fuel identifier with
  | none => none
  | some r =>
      let symbol_already_exists := r.isSome
      let new_length : Int :=
        if ¬symbol_already_exists ∧ entry.isSome then t._length + 1
        else if symbol_already_exists ∧ entry.isNone then t._length - 1
        else t._length
      some (symbol_already_exists,
            ⟨(identifier, entry) :: t.frames, new_length⟩)

/-- `FPSymbolTable.length`: the `_length` counter. -/
def FPSymbolTable.length (t : FPSymbolTable) : Int := t._length

/-!
Scanner (`src/ecco/scanning/ecco_scanner.py`).

A character produced by `self.file.read(1)` or held in `put_back_buffer` is a
Python string that is either empty (end of input) or of length 1; we model
such a string as `Option Char` (`none` = `""`).  The open file is modelled as
the list of characters not yet read.
-/

/-- Scanner state: remaining input characters, the one-character putback
buffer (`none` = `""`), and the 1-based line and column counters. -/
structure ScannerState where
  input : List Char
  put_back_buffer : Option Char
  line_number : Nat
  char_number : Nat
deriving DecidableEq

/-- `Scanner.next_character()`: returns the buffered character first (clearing
the buffer, without touching the counters); otherwise reads one character,
increments `char_number`, and on a newline increments `line_number` and
resets `char_number` to 1.  At end of input `read(1)` returns `""` (here
`none`) and `char_number` is still incremented. -/
def Scanner.next_character (st : ScannerState) :
    Option Char × ScannerState :=
  match st.put_back_buffer with
  | some c => (some c, { st with put_back_buffer := none })
  | none =>
    match st.input with
    | [] => (none, { st with char_number := st.char_number + 1 })
    | c :: rest =>
        if c = '\n' then
          (some c, { st with input := rest, line_number := st.line_number + 1,
                             char_number := 1 })
        else
          (some c, { st with input := rest, char_number := st.char_number + 1 })

/-- `Scanner.put_back(c)`: raises `TypeError` unless `len(c) == 1`; in this
model the argument is `""` (`none`, length 0) or a single character.  On
success stores the character in the buffer. -/
def Scanner.put_back (c : Option Char) (st : ScannerState) :
    Except EccoError ScannerState :=
  match c with
  | none =>
      .error (.TypeError
        "put_back() expected a character, but string of length 0 found")
  | some ch => .ok { st with put_back_buffer := some ch }

/-- The loop guard of `scan_identifier`: `c.isalpha() or c == "_"`
(`"".isalpha()` is `False`; the claims only involve ASCII letters, for which
Python `str.isalpha` agrees with `Char.isAlpha`). -/
def pyIsAlphaOrUnderscore (c : Option Char) : Bool :=
  match c with
  | none => false
  | some ch => ch.isAlpha || ch = '_'

/-- The loop guard of `scan_integer_literal`: `c.isdigit()` (for ASCII input
Python `str.isdigit` agrees with `Char.isDigit`; `"".isdigit()` is `False`). -/
def pyIsDigit (c : Option Char) : Bool :=
  match c with
  | none => false
  | some ch => ch.isDigit

/-- The `while` loop of `Scanner.scan_identifier`, fuel-indexed:
`while c.isalpha() or c == "_": identifier += c; c = next_character();
if len(identifier) >= 512: raise EccoIdentifierError(...)`, and after the
loop `put_back(c); return identifier`.  `none` = out of fuel. -/
def scanIdentifierLoop :
    Nat → String → Option Char → ScannerState →
    Option (Except EccoError (String × ScannerState))
  | 0, _, _, _ => none
  | fuel + 1, identifier, c, st =>
    if pyIsAlphaOrUnderscore c then
      match c with
      | none => none
      | some ch =>
          let identifier := identifier.push ch
          let next := Scanner.next_character st
          if identifier.length ≥ 512 then
            some (.error (.EccoIdentifierError "Identifier is too long!"))
          else
            scanIdentifierLoop fuel identifier next.1 next.2
    else
      match Scanner.put_back c st with
      | .error e => some (.error e)
      | .ok st' => some (.ok (identifier, st'))

/-- `Scanner.scan_identifier(c)`.  The loop runs at most
`2 + st.input.length` times (each iteration consumes the initial character,
the buffered character, or one input character), so the supplied fuel always
suffices. -/
def Scanner.scan_identifier (c : Option Char) (st : ScannerState) :
    Option (Except EccoError (String × ScannerState)) :=
  scanIdentifierLoop (st.input.length + 3) "" c st

/-- Python `int(s)` on a non-empty string of decimal digits. -/
def pyInt (s : String) : Nat :=
  s.foldl (fun a c => 10 * a + (c.toNat - '0'.toNat)) 0

/-- The `while` loop of `Scanner.scan_integer_literal`, fuel-indexed:
`while c.isdigit(): in_string += c; c = next_character()`, then
`put_back(c)`.  `none` = out of fuel. -/
def scanIntegerLoop :
    Nat → String → Option Char → ScannerState →
    Option (Except EccoError (String × ScannerState))
  | 0, _, _, _ => none
  | fuel + 1, in_string, c, st =>
    if pyIsDigit c then
      match c with
      | none => none
      | some ch =>
          let in_string := in_string.push ch
          let next := Scanner.next_character st
          scanIntegerLoop fuel in_string next.1 next.2
    else
      match Scanner.put_back c st with
      | .error e => some (.error e)
      | .ok st' => some (.ok (in_string, st'))

/-- `Scanner.scan_integer_literal(c)`: runs the digit loop, puts back the
first non-digit, and returns `int(in_string)`. -/
def Scanner.scan_integer_literal (c : Option Char) (st : ScannerState) :
    Option (Except EccoError (Nat × ScannerState)) :=
  (scanIntegerLoop (st.input.length + 3) "" c st).map
    (fun r => r.map (fun p => (pyInt p.1, p.2)))

/-!
Statement driver (`src/ecco/parsing/statement.py`).

`TokenType`, `str(TokenType)`, the `ASTNode` class, the global scanner and
the expression parser live in modules that are external collaborators of the
statement driver; they are modelled from the spec below.
-/

/-- Modelled from the spec: the token-kind catalog (`ecco_token.TokenType`
is not part of the statement driver's sources).  A closed enumeration with
end-of-file, integer literal, the print keyword, semicolon, punctuation, and
the unknown sentinel. -/
inductive TokenType where
  | EOF
  | INTEGER_LITERAL
  | PRINT
  | SEMICOLON
  | PLUS
  | UNKNOWN_TOKEN
deriving DecidableEq

/-- Modelled from the spec: `str(tt)`, the spelling of a token kind from the
token-kind catalog. -/
def TokenType.str : TokenType → String
  | .EOF => "EOF"
  | .INTEGER_LITERAL => "integer literal"
  | .PRINT => "print"
  | .SEMICOLON => ";"
  | .PLUS => "+"
  | .UNKNOWN_TOKEN => "unknown token"

/-- Modelled from the spec: an AST fragment is an opaque node produced by the
external expression parser; the driver imposes no structure on it. -/
structure ASTNode where
  node_id : Nat
deriving DecidableEq

/-- The statement driver's view of `GLOBAL_SCANNER`: the kind of
`current_token` plus the kinds of the tokens that subsequent `scan()` calls
will produce. -/
structure GlobalScanner where
  current_token : TokenType
  pending : List TokenType
deriving DecidableEq

/-- `GLOBAL_SCANNER.scan()` at the token level: moves the next pending token
into `current_token`; once the stream is exhausted every further `scan()`
leaves an `EOF` token. -/
def GlobalScanner.scan (g : GlobalScanner) : GlobalScanner :=
  match g.pending with
  | [] => ⟨TokenType.EOF, []⟩
  | t :: ts => ⟨t, ts⟩

/-- The message of the `EccoSyntaxError` raised by `match_token`:
`f'Expected "{str(tt)}" but got "{str(GLOBAL_SCANNER.current_token.type)}"'`. -/
def expectedMsg (expected actual : TokenType) : String :=
  "Expected \"" ++ expected.str ++ "\" but got \"" ++ actual.str ++ "\""

/-- `match_token(tt)`: if the current token's kind equals `tt`, advance the
scanner by one token; otherwise raise an `EccoSyntaxError` naming the
expected and the actual kind. -/
def match_token (tt : TokenType) (g : GlobalScanner) :
    Except EccoError GlobalScanner :=
  if g.current_token = tt then .ok g.scan
  else .error (.EccoSyntaxError (expectedMsg tt g.current_token))

/-- The type of the external expression parser entry point
`parse_binary_expression(n)`: takes the minimum precedence and the scanner
state, consumes tokens, and returns an AST fragment (or raises). -/
def ExprParser : Type :=
  Nat → GlobalScanner → Except EccoError (ASTNode × GlobalScanner)

/-- One iteration of the `parse_statements` generator loop: `.ok none` when
the current token is `EOF` (the generator finishes); otherwise
`match_token(PRINT)`, `tree = parse_binary_expression(0)`,
`match_token(SEMICOLON)`, and only then `yield tree`.  Any raised error
propagates with nothing yielded. -/
def parse_statements_step (parse_binary_expression : ExprParser)
    (g : GlobalScanner) : Except EccoError (Option (ASTNode × GlobalScanner)) :=
  if g.current_token = TokenType.EOF then .ok none
  else
    match match_token TokenType.PRINT g with
    | .error e => .error e
    | .ok g1 =>
      match parse_binary_expression 0 g1 with
      | .error e => .error e
      | .ok (tree, g2) =>
        match match_token TokenType.SEMICOLON g2 with
        | .error e => .error e
        | .ok g3 => .ok (some (tree, g3))

/-- The full `parse_statements` generator, fuel-indexed: the list of AST
fragments yielded before the loop terminates at `EOF`.  `none` = out of
fuel, `some (.error e)` = the loop raised after yielding the listed
fragments. -/
def parse_statements (parse_binary_expression : ExprParser) :
    Nat → GlobalScanner → Option (Except EccoError (List ASTNode))
  | 0, _ => none
  | fuel + 1, g =>
    match parse_statements_step parse_binary_expression g with
    | .error e => some (.error e)
    | .ok none => some (.ok [])
    | .ok (some (tree, g')) =>
        (parse_statements parse_binary_expression fuel g').map
          (fun r => r.map (fun l => tree :: l))

/-! ## Helper lemmas -/

theorem char_toNat_lt_two_pow_64 (c : Char) : c.toNat < 2 ^ 64 :=
  lt_of_lt_of_le c.val.toNat_lt (by norm_num)

theorem xor_mod_two_pow_64 (h c : Nat) (hc : c < 2 ^ 64) :
    (h % 2 ^ 64) ^^^ c = (h ^^^ c) % 2 ^ 64 := by
  apply Nat.eq_of_testBit_eq
  intro i
  rw [Nat.testBit_xor, Nat.testBit_mod_two_pow, Nat.testBit_mod_two_pow,
      Nat.testBit_xor]
  rcases lt_or_ge i 64 with hi | hi
  · simp [hi]
  · have hcbit : c.testBit i = false :=
      Nat.testBit_lt_two_pow
        (lt_of_lt_of_le hc (Nat.pow_le_pow_right (by norm_num) hi))
    simp [not_lt.2 hi, hcbit]

theorem fnv1a_spec_foldl (l : List Char) : ∀ h : Nat,
    l.foldl (fun h c => ((h ^^^ c.toNat) * FNV_PRIME) % 2 ^ 64) (h % 2 ^ 64)
      = (l.foldl (fun h c => (h ^^^ c.toNat) * FNV_PRIME) h) % 2 ^ 64 := by
  induction l with
  | nil => intro h; simp
  | cons c l ih =>
      intro h
      simp only [List.foldl_cons]
      rw [xor_mod_two_pow_64 h c.toNat (char_toNat_lt_two_pow_64 c),
          Nat.mod_mul_mod]
      exact ih _

theorem fnv1a_spec_eq_mod (l : List Char) :
    fnv1a_spec l = fnv1a l % 2 ^ 64 := by
  unfold fnv1a_spec fnv1a
  have h := fnv1a_spec_foldl l FNV_OFFSET_BASIS
  rwa [Nat.mod_eq_of_lt (by norm_num [FNV_OFFSET_BASIS])] at h

theorem fpCall_nil (fuel : Nat) (s : String) : fpCall [] fuel s = some none := by
  cases fuel <;> rfl

theorem fpCall_ne_head (id : String) (e : Option SymbolTableEntry)
    (rest : List (String × Option SymbolTableEntry)) (s : String)
    (h : s ≠ id) : ∀ fuel, fpCall ((id, e) :: rest) fuel s = none := by
  intro fuel
  induction fuel with
  | zero => simp [fpCall, h]
  | succ n ih => simp only [fpCall, if_neg h] at ih ⊢; exact ih

/-! ## Claim theorems -/

set_option maxRecDepth 4000 in
/-- C1: on a fresh 512-slot table the slot for `"x"` is empty (`get` returns
`some none`), yet `update("x", entry)` returns `True` — the source sets
`symbol_already_exists = True` exactly when the slot is `None`, the opposite
of the claimed (and docstring's) behaviour. -/
theorem c1_update_flag_inverted :
    (HashTableSymbolTable.init 512).get "x" = some none ∧
    ((HashTableSymbolTable.init 512).update "x"
        (some (SymbolTableEntry.mk "x" 0 none))).map Prod.fst = some true := by
  exact ⟨rfl, rfl⟩

/-- C3 (counterexample): for a 3-slot table (`HashTableSymbolTable(3)`), the
code's `hash("a")` — computed over unbounded Python integers — differs from
the spec's 64-bit-wraparound FNV-1a reduced modulo the slot count. -/
theorem c3_hash_counterexample :
    (HashTableSymbolTable.init 3).hash "a"
      ≠ hash_spec (HashTableSymbolTable.init 3).length "a" := by
  decide

/-- C3 (amended): `hash(s)` equals the unbounded FNV-1a accumulation reduced
modulo the slot count, which agrees with the spec's 64-bit-wraparound variant
exactly on tables whose slot count divides `2^64` (in particular the default
512). -/
theorem c3_hash_fnv1a (t : HashTableSymbolTable) (s : String)
    (hdvd : t.length ∣ 2 ^ 64) :
    t.hash s = fnv1a s.data % t.length ∧
    t.hash s = hash_spec t.length s := by
  refine ⟨rfl, ?_⟩
  unfold HashTableSymbolTable.hash hash_spec
  rw [fnv1a_spec_eq_mod, Nat.mod_mod_of_dvd _ hdvd]

/-- C3 witness: the amended claim instantiated on the default 512-slot table
and the string `"count"`. -/
theorem c3_hash_fnv1a_witness :
    (HashTableSymbolTable.init 512).hash "count"
        = fnv1a "count".data % (HashTableSymbolTable.init 512).length ∧
    (HashTableSymbolTable.init 512).hash "count"
        = hash_spec (HashTableSymbolTable.init 512).length "count" :=
  c3_hash_fnv1a (HashTableSymbolTable.init 512) "count"
    ⟨2 ^ 55, by norm_num [HashTableSymbolTable.init, HashTableSymbolTable.length]⟩

/-- C4: on any table of positive length, if distinct names `a ≠ b` hash to
the same slot, then `update(a, E1)` followed by `update(b, E2)` makes
`get(a)` return `E2` — the colliding write silently overwrites with no
probing, chaining, or name-equality check. -/
theorem c4_collision_overwrite (t : HashTableSymbolTable) (a b : String)
    (e1 e2 : Option SymbolTableEntry) (hlen : 0 < t.length)
    (hab : a ≠ b) (hcol : t.hash a = t.hash b) :
    ∃ r1 t1 r2 t2,
      t.update a e1 = some (r1, t1) ∧
      t1.update b e2 = some (r2, t2) ∧
      t2.get a = some e2 := by
  have hi : t.hash a < t.data.length := Nat.mod_lt _ hlen
  have h1 : t.data[t.hash a]? = some t.data[t.hash a] :=
    List.getElem?_eq_getElem hi
  refine ⟨(t.data[t.hash a]).isNone, ⟨t.data.set (t.hash a) e1⟩,
          e1.isNone, ⟨(t.data.set (t.hash a) e1).set (t.hash a) e2⟩,
          ?_, ?_, ?_⟩
  · simp [HashTableSymbolTable.update, h1]
  · have hhb : (⟨t.data.set (t.hash a) e1⟩ : HashTableSymbolTable).hash b
        = t.hash a := by
      simp [HashTableSymbolTable.hash, HashTableSymbolTable.length,
            List.length_set]
      exact hcol.symm
    have h2 : (t.data.set (t.hash a) e1)[t.hash a]? = some e1 :=
      List.getElem?_set_eq_of_lt e1 hi
    simp [HashTableSymbolTable.update, hhb, h2]
  · have hha : (⟨(t.data.set (t.hash a) e1).set (t.hash a) e2⟩ :
        HashTableSymbolTable).hash a = t.hash a := by
      simp [HashTableSymbolTable.hash, HashTableSymbolTable.length,
            List.length_set]
    have h3 : ((t.data.set (t.hash a) e1).set (t.hash a) e2)[t.hash a]? = some e2 :=
      List.getElem?_set_eq_of_lt e2 (by simpa [List.length_set] using hi)
    unfold HashTableSymbolTable.get
    rw [List.get?_eq_getElem?, hha]
    exact h3

/-- C4 witness: a concrete collision — in a 1-slot table every name hashes
to slot 0, so `"a"` and `"b"` collide and the second write wins. -/
theorem c4_collision_overwrite_witness :
    ∃ r1 t1 r2 t2,
      (HashTableSymbolTable.init 1).update "a"
          (some (SymbolTableEntry.mk "a" 1 none)) = some (r1, t1) ∧
      t1.update "b" (some (SymbolTableEntry.mk "b" 2 none)) = some (r2, t2) ∧
      t2.get "a" = some (some (SymbolTableEntry.mk "b" 2 none)) :=
  c4_collision_overwrite (HashTableSymbolTable.init 1) "a" "b"
    (some (SymbolTableEntry.mk "a" 1 none)) (some (SymbolTableEntry.mk "b" 2 none))
    (by decide) (by decide) (by decide)

/-- C8: `resize(f)` appends exactly `f` empty slots at the end of the backing
sequence, leaves every slot below the old length unchanged (no rehashing),
and grows `length` by exactly `f`. -/
theorem c8_resize_appends (t : HashTableSymbolTable) (f : Nat) (hf : 0 < f) :
    (t.resize f).data = t.data ++ List.replicate f none ∧
    (t.resize f).data.take t.length = t.data ∧
    (t.resize f).length = t.length + f := by
  refine ⟨rfl, ?_, ?_⟩
  · exact List.take_left t.data (List.replicate f none)
  · simp [HashTableSymbolTable.resize, HashTableSymbolTable.length]

/-- C8 witness: the frame property instantiated on a concrete 2-slot table
grown by 2. -/
theorem c8_resize_appends_witness :
    ((HashTableSymbolTable.init 2).resize 2).data
        = (HashTableSymbolTable.init 2).data ++ List.replicate 2 none ∧
    ((HashTableSymbolTable.init 2).resize 2).data.take
        (HashTableSymbolTable.init 2).length = (HashTableSymbolTable.init 2).data ∧
    ((HashTableSymbolTable.init 2).resize 2).length
        = (HashTableSymbolTable.init 2).length + 2 :=
  c8_resize_appends (HashTableSymbolTable.init 2) 2 (by decide)

/-- C2: after `update("x", entry)` on a fresh `FPSymbolTable`, `get("y")`
never returns for any recursion depth: the installed closure reads
`self.data` at call time — already rebound to the closure itself — so a
query for any name other than the most recent identifier delegates to
itself forever (`RecursionError`), instead of delegating to the previous
lookup function and returning the latest binding. -/
theorem c2_fp_get_diverges (e : Option SymbolTableEntry) (fuel fuel' : Nat) :
    ∃ st1, FPSymbolTable.init.update fuel "x" e = some (false, st1) ∧
      st1.frames = [("x", e)] ∧
      st1.get fuel' "y" = none := by
  cases e with
  | none =>
      refine ⟨⟨[("x", none)], 0⟩, ?_, rfl,
        fpCall_ne_head "x" none [] "y" (by decide) fuel'⟩
      unfold FPSymbolTable.update FPSymbolTable.get FPSymbolTable.init
      rw [fpCall_nil]
      rfl
  | some v =>
      refine ⟨⟨[("x", some v)], 1⟩, ?_, rfl,
        fpCall_ne_head "x" (some v) [] "y" (by decide) fuel'⟩
      unfold FPSymbolTable.update FPSymbolTable.get FPSymbolTable.init
      rw [fpCall_nil]
      rfl

/-- C5: the length counter is only meaningful for update sequences that
complete, but the second update of the sequence
`update("a", E1); update("b", E2)` never completes for any recursion depth:
its initial `get("b")` delegates to itself forever.  (The first update does
complete and sets the counter to 1.) -/
theorem c5_fp_second_update_diverges (e1 e2 : SymbolTableEntry)
    (fuel fuel' : Nat) :
    FPSymbolTable.init.update fuel "a" (some e1)
        = some (false, ⟨[("a", some e1)], 1⟩) ∧
    FPSymbolTable.update ⟨[("a", some e1)], 1⟩ fuel' "b" (some e2) = none := by
  constructor
  · unfold FPSymbolTable.update FPSymbolTable.get FPSymbolTable.init
    rw [fpCall_nil]
    rfl
  · unfold FPSymbolTable.update FPSymbolTable.get
    rw [fpCall_ne_head "a" (some e1) [] "b" (by decide) fuel']

/-- C7: with an empty putback buffer, `put_back(c)` succeeds for any single
character `c`, and the following `next_character()` returns `c` and restores
the scanner state exactly — in particular `line_number` and `char_number`
are unchanged by the round trip. -/
theorem c7_put_back_round_trip (c : Char) (st : ScannerState)
    (h : st.put_back_buffer = none) :
    Scanner.put_back (some c) st = .ok { st with put_back_buffer := some c } ∧
    Scanner.next_character { st with put_back_buffer := some c } = (some c, st) ∧
    (Scanner.next_character { st with put_back_buffer := some c }).2.line_number
        = st.line_number ∧
    (Scanner.next_character { st with put_back_buffer := some c }).2.char_number
        = st.char_number := by
  obtain ⟨inp, buf, ln, cn⟩ := st
  simp only [ScannerState.mk.injEq] at h ⊢
  subst h
  exact ⟨rfl, rfl, rfl, rfl⟩

/-- C7 witness: the round trip at a concrete scanner state. -/
theorem c7_put_back_round_trip_witness :
    Scanner.put_back (some 'z') ⟨['a', 'b'], none, 1, 1⟩
        = .ok ⟨['a', 'b'], some 'z', 1, 1⟩ ∧
    Scanner.next_character ⟨['a', 'b'], some 'z', 1, 1⟩
        = (some 'z', ⟨['a', 'b'], none, 1, 1⟩) ∧
    (Scanner.next_character ⟨['a', 'b'], some 'z', 1, 1⟩).2.line_number = 1 ∧
    (Scanner.next_character ⟨['a', 'b'], some 'z', 1, 1⟩).2.char_number = 1 :=
  c7_put_back_round_trip 'z' ⟨['a', 'b'], none, 1, 1⟩ rfl

set_option maxRecDepth 8000 in
/-- C6: scanning an identifier of exactly 512 alphabetic characters raises
`EccoIdentifierError` (the check fires as soon as the accumulated identifier
reaches 512 characters), while 511 identifier characters followed by a
non-identifier character succeed and return the 511-character string (with
the terminating `';'` put back and the column counter advanced by the 511
reads). -/
theorem c6_identifier_length_cap :
    Scanner.scan_identifier (some 'a')
        ⟨List.replicate 511 'a' ++ [';'], none, 1, 1⟩
      = some (.error (.EccoIdentifierError "Identifier is too long!")) ∧
    Scanner.scan_identifier (some 'a')
        ⟨List.replicate 510 'a' ++ [';'], none, 1, 1⟩
      = some (.ok (String.mk (List.replicate 511 'a'),
                   ⟨[], some ';', 1, 512⟩)) := by
  exact ⟨rfl, rfl⟩

/-- C10: when an integer literal (`"123"`) or a keyword identifier
(`"print"`) extends to the very end of the input, the scanning loop exits on
the empty-string end-of-input sentinel, which is then passed to `put_back`,
whose single-character length check raises `TypeError` instead of a token
being produced. -/
theorem c10_eof_put_back_type_error :
    Scanner.scan_integer_literal (some '1') ⟨['2', '3'], none, 1, 1⟩
      = some (.error (.TypeError
          "put_back() expected a character, but string of length 0 found")) ∧
    Scanner.scan_identifier (some 'p') ⟨['r', 'i', 'n', 't'], none, 1, 1⟩
      = some (.error (.TypeError
          "put_back() expected a character, but string of length 0 found")) := by
  exact ⟨rfl, rfl⟩

/-- C9: the statement driver's behaviour.  `match_token` advances the
scanner by exactly one token when the kinds match and otherwise raises a
syntax error naming both the expected and the actual kind.  One iteration
of the `parse_statements` loop finishes at end-of-file; otherwise it
consumes the print keyword, one expression obtained from the external
expression parser called with minimum precedence 0, and a semicolon, and
yields the expression's AST fragment only after the full sequence matches —
on any mismatch it raises the both-kinds syntax error (or propagates the
expression parser's error) with no partial statement yielded. -/
theorem c9_statement_driver :
    (∀ (tt : TokenType) (g : GlobalScanner),
      (g.current_token = tt → match_token tt g = .ok g.scan) ∧
      (g.current_token ≠ tt →
        match_token tt g
          = .error (.EccoSyntaxError (expectedMsg tt g.current_token)))) ∧
    (∀ (pe : ExprParser) (g : GlobalScanner),
      (g.current_token = TokenType.EOF →
        parse_statements_step pe g = .ok none) ∧
      (g.current_token ≠ TokenType.EOF → g.current_token ≠ TokenType.PRINT →
        parse_statements_step pe g
          = .error (.EccoSyntaxError
              (expectedMsg TokenType.PRINT g.current_token))) ∧
      (∀ e, g.current_token = TokenType.PRINT → pe 0 g.scan = .error e →
        parse_statements_step pe g = .error e) ∧
      (∀ tree g2, g.current_token = TokenType.PRINT →
        pe 0 g.scan = .ok (tree, g2) →
        g2.current_token ≠ TokenType.SEMICOLON →
        parse_statements_step pe g
          = .error (.EccoSyntaxError
              (expectedMsg TokenType.SEMICOLON g2.current_token))) ∧
      (∀ tree g2, g.current_token = TokenType.PRINT →
        pe 0 g.scan = .ok (tree, g2) →
        g2.current_token = TokenType.SEMICOLON →
        parse_statements_step pe g = .ok (some (tree, g2.scan)))) := by
  constructor
  · intro tt g
    constructor
    · intro h; simp [match_token, h]
    · intro h; simp [match_token, h]
  · intro pe g
    have hPE : TokenType.PRINT ≠ TokenType.EOF := by decide
    refine ⟨?_, ?_, ?_, ?_, ?_⟩
    · intro h; simp [parse_statements_step, h]
    · intro hEOF hP
      simp [parse_statements_step, hEOF, match_token, hP]
    · intro e hP hpe
      have hEOF : g.current_token ≠ TokenType.EOF := hP ▸ hPE
      simp [parse_statements_step, hEOF, match_token, hP, hpe]
    · intro tree g2 hP hpe hg2
      have hEOF : g.current_token ≠ TokenType.EOF := hP ▸ hPE
      simp [parse_statements_step, hEOF, match_token, hP, hpe, hg2]
    · intro tree g2 hP hpe hg2
      have hEOF : g.current_token ≠ TokenType.EOF := hP ▸ hPE
      simp [parse_statements_step, hEOF, match_token, hP, hpe, hg2]

/-- C9 witness: a concrete run — with current token `print`, pending tokens
`[;]`, and an expression parser that returns a fragment without consuming
further tokens, `match_token` advances on a match and one driver iteration
yields exactly that fragment. -/
theorem c9_statement_driver_witness :
    match_token TokenType.PRINT ⟨TokenType.PRINT, [TokenType.SEMICOLON]⟩
      = .ok ⟨TokenType.SEMICOLON, []⟩ ∧
    parse_statements_step (fun _ g => .ok (⟨7⟩, g))
        ⟨TokenType.PRINT, [TokenType.SEMICOLON]⟩
      = .ok (some (⟨7⟩, ⟨TokenType.EOF, []⟩)) :=
  ⟨(c9_statement_driver.1 TokenType.PRINT
      ⟨TokenType.PRINT, [TokenType.SEMICOLON]⟩).1 rfl,
   (c9_statement_driver.2 (fun _ g => .ok (⟨7⟩, g))
      ⟨TokenType.PRINT, [TokenType.SEMICOLON]⟩).2.2.2.2
     ⟨7⟩ ⟨TokenType.SEMICOLON, []⟩ rfl rfl rfl⟩
